import Mathlib

/-!
Verification of the WebP batch converter (`src/convert_webp_to_jpg_gui.py`).

The development shallowly embeds the conversion core of the program:

* `convert_single_webp` — the per-task converter (decode, JPEG or GIF encode,
  optional deletion of the original), with its `try/except` failure boundary;
* `on_task_done` / `processResults` — the progress-aggregation callback and the
  serialized processing of a batch's completion events (CPython's
  `multiprocessing.Pool` delivers `apply_async` callbacks one at a time on a
  single result-handler thread, so a run of the aggregator is a sequence of
  atomic callback steps);
* `convert_all` — the dispatcher: guard checks, pool creation sized to
  `cpu_count()`, one asynchronous submission per path, `close()`/`join()`.

File-system and image-library effects are made explicit: PIL images become a
symbolic term algebra (`PILImage`) recording exactly which decode/convert/
quantize operations produced a raster, and the side effects of one task are
the list of files written (with the full save parameters) and removed.  A
`TaskEnv` records the outcome of each fallible external operation (decode,
quantize, encode/write, remove), so every exception path of the Python code is
reachable in the model.
-/

namespace WebPConv

/-- Index of the last occurrence of `c` in the list, if any. -/
def lastIdxAux (c : Char) : List Char → Option Nat
  | [] => none
  | x :: xs =>
    match lastIdxAux c xs with
    | some n => some (n + 1)
    | none => if x = c then some 0 else none

/-- `os.path.split` (posixpath): split at the final slash; the head keeps a
root of slashes but otherwise drops trailing slashes. -/
def osPathSplit (p : String) : String × String :=
  let cs := p.data
  match lastIdxAux '/' cs with
  | none => ("", p)
  | some k =>
    let head := cs.take (k + 1)
    let tail := cs.drop (k + 1)
    let head := if head.all (· = '/') then head
                else (head.reverse.dropWhile (· = '/')).reverse
    (String.mk head, String.mk tail)

/-- `os.path.splitext` (posixpath): split at the final dot, provided it lies
after the final slash and some earlier character of the basename is not a dot
(leading dots never start an extension). -/
def osSplitext (p : String) : String × String :=
  let cs := p.data
  match lastIdxAux '.' cs with
  | none => (p, "")
  | some d =>
    let s := ((lastIdxAux '/' cs).map (· + 1)).getD 0
    if s ≤ d ∧ (((cs.drop s).take (d - s)).any (· ≠ '.')) then
      (String.mk (cs.take d), String.mk (cs.drop d))
    else (p, "")

/-- `os.path.join` (posixpath) for two components. -/
def osPathJoin (a b : String) : String :=
  if b.startsWith "/" then b
  else if a = "" ∨ a.endsWith "/" then a ++ b
  else a ++ "/" ++ b

/-- Python `str.lower` (ASCII view, enough for file extensions). -/
def pyLower (s : String) : String := String.mk (s.data.map Char.toLower)

/-- One decoded frame: only its display duration is observable here
(`frame.info.get("duration", 100)`); `none` models an absent entry. -/
structure Frame where
  duration : Option Nat
deriving Repr, DecidableEq

/-- A decoded WebP source: its finite frame sequence in temporal order. -/
structure WebPImage where
  frames : List Frame
deriving Repr, DecidableEq

/-- Symbolic PIL raster: which operations produced it.  `src i` is frame `i`
of the decoded source as yielded by `ImageSequence.Iterator`. -/
inductive PILImage where
  | src (frameIdx : Nat)
  | convertRGB (img : PILImage)
  | quantizeMediancut (img : PILImage) (colors : Nat)
  | quantizePalette (img : PILImage) (palette : PILImage)
deriving Repr, DecidableEq

/-- The parameters of one `save` call. -/
inductive SaveSpec where
  | jpeg (img : PILImage) (quality : Nat) (subsampling : Nat) (optimize : Bool)
  | gifStatic (img : PILImage)
  | gifAnimated (first : PILImage) (appended : List PILImage) (loop : Nat)
      (durations : List Nat) (disposal : Nat) (optimize : Bool)
deriving Repr, DecidableEq

/-- The frame sequence a GIF save call writes (first frame plus
`append_images`); empty for a JPEG save. -/
def SaveSpec.gifFrames : SaveSpec → List PILImage
  | .jpeg _ _ _ _ => []
  | .gifStatic i => [i]
  | .gifAnimated f rest _ _ _ _ => f :: rest

/-- Whether a save call uses the JPEG encoder. -/
def SaveSpec.usesJPEGEncoder : SaveSpec → Bool
  | .jpeg _ _ _ _ => true
  | _ => false

/-- One completed file write: target path and the save parameters. -/
structure FileWrite where
  path : String
  spec : SaveSpec
deriving Repr, DecidableEq

/-- File-system side effects of one task: files written and files removed,
in order. -/
structure SideEffects where
  writes : List FileWrite
  removes : List String
deriving Repr, DecidableEq

/-- The tuple `convert_single_webp` returns:
`(success, webp_path, error-message-or-None)`. -/
structure PyResult where
  success : Bool
  source_path : String
  error : Option String
deriving Repr, DecidableEq

/-- Outcomes of the fallible external operations one task performs.  A `none`
decode models `Image.open`/read raising; the `Ok` flags model the quantize,
save and `os.remove` calls raising, with the message `str(e)` would carry. -/
structure TaskEnv where
  decode : Option WebPImage
  decodeErr : String
  quantizeOk : Bool
  quantizeErr : String
  encodeOk : Bool
  encodeErr : String
  removeOk : Bool
  removeErr : String
deriving Repr, DecidableEq

/-- The canonical GIF palette: the first decoded frame converted to RGB and
median-cut quantized to 256 colors (`first_rgb.quantize(palette=None,
colors=256, method=Image.MEDIANCUT)`). -/
def canonicalPalette : PILImage :=
  .quantizeMediancut (.convertRGB (.src 0)) 256

/-- The per-frame GIF pipeline: every frame of the sequence converted to RGB
and remapped onto the canonical palette
(`f_rgb.quantize(palette=paletted_first)` inside the iterator loop). -/
def gifMappedFrames (k : Nat) : List PILImage :=
  (List.range k).map (fun i => .quantizePalette (.convertRGB (.src i)) canonicalPalette)

/-- `convert_single_webp(args)`: converts one WebP file to JPEG or GIF,
optionally deleting the original, the whole body inside one
`try/except Exception` boundary.  Returns the Python result triple together
with the file-system effects that actually occurred. -/
def convert_single_webp (env : TaskEnv) (args : String × String × Bool) :
    PyResult × SideEffects :=
  let (webp_path, output_format, delete_original) := args
  let (dirname, filename) := osPathSplit webp_path
  let (base_name, _) := osSplitext filename
  match env.decode with
  | none =>
    ({ success := false, source_path := webp_path, error := some env.decodeErr },
     { writes := [], removes := [] })
  | some img =>
    let encoded : Except String FileWrite :=
      if output_format = "JPEG" then
        let out_path := osPathJoin dirname (base_name ++ ".jpg")
        if env.encodeOk then
          .ok { path := out_path,
                spec := .jpeg (.convertRGB (.src 0)) 100 0 true }
        else .error env.encodeErr
      else
        let out_path := osPathJoin dirname (base_name ++ ".gif")
        if env.quantizeOk then
          let frames_rgb := gifMappedFrames img.frames.length
          let durations := img.frames.map (fun f => f.duration.getD 100)
          if env.encodeOk then
            if frames_rgb.length ≤ 1 then
              .ok { path := out_path, spec := .gifStatic canonicalPalette }
            else
              .ok { path := out_path,
                    spec := .gifAnimated (frames_rgb.headD canonicalPalette)
                      frames_rgb.tail 0 durations 2 false }
          else .error env.encodeErr
        else .error env.quantizeErr
    match encoded with
    | .error e =>
      ({ success := false, source_path := webp_path, error := some e },
       { writes := [], removes := [] })
    | .ok w =>
      if delete_original then
        if env.removeOk then
          ({ success := true, source_path := webp_path, error := none },
           { writes := [w], removes := [webp_path] })
        else
          ({ success := false, source_path := webp_path, error := some env.removeErr },
           { writes := [w], removes := [] })
      else
        ({ success := true, source_path := webp_path, error := none },
         { writes := [w], removes := [] })

/-- The progress counters of `WebPConverterApp`
(`self.total_files`, `self.completed_files`). -/
structure AggState where
  total_files : Nat
  completed_files : Nat
deriving Repr, DecidableEq

/-- Observable notifications the app emits while a batch runs: the per-callback
progress update (label and progress bar) and the terminal
`messagebox.showinfo` fired when `completed_files == total_files`. -/
inductive UIEvent where
  | progress (completed total : Nat)
  | batchComplete (total : Nat)
deriving Repr, DecidableEq

/-- `_on_task_done(result)`: one completion callback.  Increments
`completed_files`, publishes the updated progress pair, and fires the terminal
notification exactly when the count reaches `total_files`.  The result's
contents are unpacked but unused. -/
def on_task_done (st : AggState) (_r : PyResult) : AggState × List UIEvent :=
  let completed := st.completed_files + 1
  let st1 : AggState := { st with completed_files := completed }
  if completed = st.total_files then
    (st1, [.progress completed st.total_files, .batchComplete st.total_files])
  else
    (st1, [.progress completed st.total_files])

/-- Serialized processing of a batch's completion events.  CPython's `Pool`
runs all `apply_async` callbacks sequentially on its single result-handler
thread, so a whole run of the aggregator is this left-to-right fold: each
callback is one atomic step against the shared counters. -/
def processResults (st : AggState) : List PyResult → AggState × List UIEvent
  | [] => (st, [])
  | r :: rs =>
    let step := on_task_done st r
    let rest := processResults step.1 rs
    (rest.1, step.2 ++ rest.2)

/-- Number of per-completion progress updates in an event trace. -/
def countProgress : List UIEvent → Nat
  | [] => 0
  | .progress _ _ :: evs => countProgress evs + 1
  | .batchComplete _ :: evs => countProgress evs

/-- Number of terminal batch-complete notifications in an event trace. -/
def countComplete : List UIEvent → Nat
  | [] => 0
  | .progress _ _ :: evs => countComplete evs
  | .batchComplete _ :: evs => countComplete evs + 1

/-- The slice of `WebPConverterApp` state `convert_all` reads: the selection
mode (`"폴더"` or `"파일"`), the gathered paths, the two conversion options and
the `total_files` counter `select_items` set to `len(self.webp_paths)`. -/
structure AppState where
  mode : String
  webp_paths : List String
  output_format : String
  delete_original : Bool
  total_files : Nat
deriving Repr, DecidableEq

/-- What `convert_all` did with the worker pool: `Pool(processes=num_workers)`
with `num_workers = cpu_count()`, the argument tuples passed to `apply_async`
in submission order (submission never blocks the caller), then `close()` and
`join()` — `joined = true` records that `convert_all` blocks until every
worker has finished before returning. -/
structure DispatchPlan where
  num_workers : Nat
  submitted : List (String × String × Bool)
  closed : Bool
  joined : Bool
deriving Repr, DecidableEq

/-- Outcome of one `convert_all` call: an early-return warning dialog, or a
completed run with its dispatch record, final counters and event trace. -/
inductive ConvertAllOutcome where
  | warnNoFiles
  | warnNoWebp
  | ran (plan : DispatchPlan) (final : AggState) (events : List UIEvent)
deriving Repr, DecidableEq

/-- The two early-return guards at the head of `convert_all`:
an empty selection, and folder mode with no `.webp`-suffixed path. -/
def convert_all_guard (app : AppState) : Option ConvertAllOutcome :=
  if app.webp_paths.isEmpty then some .warnNoFiles
  else if app.mode == "폴더"
      && app.webp_paths.all (fun p => !((pyLower p).endsWith ".webp")) then
    some .warnNoWebp
  else none

/-- `convert_all(self)`: guard checks, pool creation sized to `cpu_count()`
(`cpu`), one `apply_async(convert_single_webp, args, callback=_on_task_done)`
per path, `close()` then `join()`.  `completions` is the fan-in order in which
the pool's result-handler thread delivers the finished tasks' results to the
callback; the aggregator starts from `completed_files = 0` (reset at line 359)
and `total_files` as `select_items` left it. -/
def convert_all (cpu : Nat) (app : AppState) (completions : List PyResult) :
    ConvertAllOutcome :=
  match convert_all_guard app with
  | some w => w
  | none =>
    let num_workers := cpu
    let tasks := app.webp_paths.map
      (fun p => (p, app.output_format, app.delete_original))
    let plan : DispatchPlan :=
      { num_workers := num_workers, submitted := tasks,
        closed := true, joined := true }
    let st0 : AggState := { total_files := app.total_files, completed_files := 0 }
    let res := processResults st0 completions
    .ran plan res.1 res.2

/-- The multiset of results the pool produces: exactly one per submitted task
(`convert_single_webp` returns on every path, its body being wrapped in
`try/except Exception`), each task run against its own environment. -/
def poolRun (tasks : List (String × String × Bool)) (envs : List TaskEnv) :
    List PyResult :=
  (tasks.zip envs).map (fun te => (convert_single_webp te.2 te.1).1)

/-- The event trace of a `convert_all` outcome (early returns emit none). -/
def outcomeEvents : ConvertAllOutcome → List UIEvent
  | .warnNoFiles => []
  | .warnNoWebp => []
  | .ran _ _ evs => evs

/-- A fully healthy environment for a one-frame source. -/
def envOk : TaskEnv :=
  { decode := some { frames := [{ duration := some 80 }] },
    decodeErr := "cannot identify image file",
    quantizeOk := true, quantizeErr := "quantize failed",
    encodeOk := true, encodeErr := "encode failed",
    removeOk := true, removeErr := "remove failed" }

/-- A healthy environment for a four-frame animated source. -/
def envAnim : TaskEnv :=
  { envOk with decode := some { frames :=
      [{ duration := some 80 }, { duration := none },
       { duration := some 40 }, { duration := some 80 }] } }

/-- A run whose `os.remove` raises after a successful encode. -/
def envRemoveFail : TaskEnv := { envOk with removeOk := false }

/-- A run whose `Image.open` raises (unreadable or corrupt file). -/
def envDecodeFail : TaskEnv := { envOk with decode := none }

/-- An empty batch in file-selection mode (no path selected). -/
def emptyApp : AppState :=
  { mode := "파일", webp_paths := [], output_format := "JPEG",
    delete_original := false, total_files := 0 }

/-- A one-file batch in file-selection mode. -/
def sampleApp : AppState :=
  { mode := "파일", webp_paths := ["/a/x.webp"], output_format := "JPEG",
    delete_original := false, total_files := 1 }

theorem on_task_done_fst (st : AggState) (r : PyResult) :
    (on_task_done st r).1 = { st with completed_files := st.completed_files + 1 } := by
  simp only [on_task_done]
  split <;> rfl

theorem countProgress_append (a b : List UIEvent) :
    countProgress (a ++ b) = countProgress a + countProgress b := by
  induction a with
  | nil => simp [countProgress]
  | cons e a ih => cases e <;> simp [countProgress, ih] <;> omega

theorem countComplete_append (a b : List UIEvent) :
    countComplete (a ++ b) = countComplete a + countComplete b := by
  induction a with
  | nil => simp [countComplete]
  | cons e a ih => cases e <;> simp [countComplete, ih] <;> omega

theorem countProgress_on_task_done (st : AggState) (r : PyResult) :
    countProgress (on_task_done st r).2 = 1 := by
  simp only [on_task_done]
  split <;> rfl

theorem countComplete_on_task_done (st : AggState) (r : PyResult) :
    countComplete (on_task_done st r).2 =
      if st.completed_files + 1 = st.total_files then 1 else 0 := by
  unfold on_task_done
  by_cases h : st.completed_files + 1 = st.total_files <;> simp [h, countComplete]

theorem processResults_fst (st : AggState) (rs : List PyResult) :
    (processResults st rs).1 =
      { st with completed_files := st.completed_files + rs.length } := by
  induction rs generalizing st with
  | nil => rfl
  | cons r rs ih =>
    simp only [processResults, ih, on_task_done_fst, List.length_cons]
    congr 1
    omega

theorem countProgress_processResults (st : AggState) (rs : List PyResult) :
    countProgress (processResults st rs).2 = rs.length := by
  induction rs generalizing st with
  | nil => rfl
  | cons r rs ih =>
    simp only [processResults, countProgress_append, countProgress_on_task_done,
      ih, List.length_cons]
    omega

theorem countComplete_processResults (st : AggState) (rs : List PyResult) :
    countComplete (processResults st rs).2 =
      if st.completed_files < st.total_files ∧
          st.total_files ≤ st.completed_files + rs.length then 1 else 0 := by
  induction rs generalizing st with
  | nil =>
    simp only [processResults, countComplete, List.length_nil]
    rw [if_neg (by omega)]
  | cons r rs ih =>
    simp only [processResults, countComplete_append, countComplete_on_task_done,
      ih, on_task_done_fst, List.length_cons]
    split_ifs <;> omega

/-- C3: the source file is removed if and only if `delete_original` is set and
the task's result reports success; every failing run (decode, quantize,
encode, or the removal itself) leaves the source untouched. -/
theorem original_removed_iff_delete_flag_and_success
    (env : TaskEnv) (path fmt : String) (del : Bool) :
    (convert_single_webp env (path, fmt, del)).2.removes =
      (if del && (convert_single_webp env (path, fmt, del)).1.success
       then [path] else []) := by
  unfold convert_single_webp
  cases env.decode <;> simp <;> split_ifs <;> simp_all

/-- C2: when `os.remove` of the original raises after a fully successful
encode, the `try/except` boundary of `convert_single_webp` catches it and the
task returns `(False, path, message)` — the exception never escapes the
per-task function (which stays total and still reports the completed write). -/
theorem delete_failure_caught_at_task_boundary
    (env : TaskEnv) (path fmt : String) (img : WebPImage)
    (hdec : env.decode = some img) (hq : env.quantizeOk = true)
    (he : env.encodeOk = true) (hr : env.removeOk = false) :
    (convert_single_webp env (path, fmt, true)).1.success = false ∧
    (convert_single_webp env (path, fmt, true)).1.error = some env.removeErr ∧
    (convert_single_webp env (path, fmt, true)).2.writes.length = 1 ∧
    (convert_single_webp env (path, fmt, true)).2.removes = [] := by
  unfold convert_single_webp
  rw [hdec]
  by_cases hf : fmt = "JPEG" <;>
    by_cases h1 : (gifMappedFrames img.frames.length).length ≤ 1 <;>
    simp [hf, hq, he, hr, h1]

theorem delete_failure_caught_witness :
    envRemoveFail.decode = some { frames := [{ duration := some 80 }] } ∧
    envRemoveFail.quantizeOk = true ∧ envRemoveFail.encodeOk = true ∧
    envRemoveFail.removeOk = false ∧
    ((convert_single_webp envRemoveFail ("/a/photo.webp", "JPEG", true)).1.success = false ∧
     (convert_single_webp envRemoveFail ("/a/photo.webp", "JPEG", true)).1.error =
       some envRemoveFail.removeErr ∧
     (convert_single_webp envRemoveFail ("/a/photo.webp", "JPEG", true)).2.writes.length = 1 ∧
     (convert_single_webp envRemoveFail ("/a/photo.webp", "JPEG", true)).2.removes = []) :=
  ⟨rfl, rfl, rfl, rfl,
    delete_failure_caught_at_task_boundary envRemoveFail "/a/photo.webp" "JPEG"
      { frames := [{ duration := some 80 }] } rfl rfl rfl rfl⟩

theorem headD_cons_tail {α : Type} (l : List α) (d : α) (h : l ≠ []) :
    l.headD d :: l.tail = l := by
  cases l with
  | nil => exact absurd rfl h
  | cons a l => rfl

theorem gifMappedFrames_length (k : Nat) : (gifMappedFrames k).length = k := by
  simp [gifMappedFrames]

theorem mem_gifMappedFrames {k : Nat} {f : PILImage} (hf : f ∈ gifMappedFrames k) :
    ∃ i, i < k ∧ f = .quantizePalette (.convertRGB (.src i)) canonicalPalette := by
  simp only [gifMappedFrames, List.mem_map, List.mem_range] at hf
  obtain ⟨i, hi, rfl⟩ := hf
  exact ⟨i, hi, rfl⟩

/-- Under a healthy decode/quantize/encode run, the non-JPEG branch performs
exactly one write: a `.gif` file beside the source, static when at most one
frame was decoded and animated otherwise. -/
theorem gif_writes_eq
    (env : TaskEnv) (path fmt : String) (del : Bool) (img : WebPImage)
    (hdec : env.decode = some img) (hq : env.quantizeOk = true)
    (he : env.encodeOk = true) (hfmt : fmt ≠ "JPEG") :
    (convert_single_webp env (path, fmt, del)).2.writes =
      [{ path := osPathJoin (osPathSplit path).1
           ((osSplitext (osPathSplit path).2).1 ++ ".gif"),
         spec :=
           if (gifMappedFrames img.frames.length).length ≤ 1 then
             .gifStatic canonicalPalette
           else
             .gifAnimated ((gifMappedFrames img.frames.length).headD canonicalPalette)
               (gifMappedFrames img.frames.length).tail 0
               (img.frames.map (fun f => f.duration.getD 100)) 2 false }] := by
  unfold convert_single_webp
  rw [hdec]
  by_cases h1 : (gifMappedFrames img.frames.length).length ≤ 1 <;>
    cases del <;> cases hrm : env.removeOk <;> simp [hfmt, hq, he, h1, hrm]

/-- C4: every GIF-format task computes one canonical 256-color median-cut
palette from the first decoded frame converted to RGB; each frame `i` of the
sequence (the first included) is converted to RGB and remapped onto that same
palette, and every frame the single written file contains is either that
palette image or such a remap — never an independently quantized frame. -/
theorem gif_single_canonical_palette
    (env : TaskEnv) (path fmt : String) (del : Bool) (img : WebPImage)
    (hdec : env.decode = some img) (hq : env.quantizeOk = true)
    (he : env.encodeOk = true) (hfmt : fmt ≠ "JPEG") :
    canonicalPalette = .quantizeMediancut (.convertRGB (.src 0)) 256 ∧
    (∀ i, i < img.frames.length →
      (gifMappedFrames img.frames.length)[i]? =
        some (.quantizePalette (.convertRGB (.src i)) canonicalPalette)) ∧
    ∃ w, (convert_single_webp env (path, fmt, del)).2.writes = [w] ∧
      ∀ f ∈ w.spec.gifFrames,
        f = canonicalPalette ∨
          ∃ i, i < img.frames.length ∧
            f = .quantizePalette (.convertRGB (.src i)) canonicalPalette := by
  refine ⟨rfl, ?_, ?_⟩
  · intro i hi
    simp [gifMappedFrames, List.getElem?_map, List.getElem?_range hi]
  · rw [gif_writes_eq env path fmt del img hdec hq he hfmt]
    refine ⟨_, rfl, ?_⟩
    by_cases h1 : (gifMappedFrames img.frames.length).length ≤ 1
    · intro f hf
      rw [if_pos h1] at hf
      simp only [SaveSpec.gifFrames, List.mem_singleton] at hf
      exact Or.inl hf
    · intro f hf
      rw [if_neg h1] at hf
      simp only [SaveSpec.gifFrames] at hf
      rw [headD_cons_tail _ _ (by intro hnil; rw [hnil] at h1; simp at h1)] at hf
      exact Or.inr (mem_gifMappedFrames hf)

/-- C5: a GIF task decoding `K` frames writes a single static palette image
when `K = 1`; when `K > 1` it writes one multi-frame image whose `K` frames
are exactly the remapped sequence in decoded order, with infinite loop count
(`loop = 0`), disposal method 2 (restore to background), the collected
durations (each source duration defaulting to 100 ms) and no size
optimization. -/
theorem gif_output_frame_structure
    (env : TaskEnv) (path fmt : String) (del : Bool) (img : WebPImage)
    (hdec : env.decode = some img) (hq : env.quantizeOk = true)
    (he : env.encodeOk = true) (hfmt : fmt ≠ "JPEG") :
    ∃ out_path,
      (img.frames.length = 1 →
        (convert_single_webp env (path, fmt, del)).2.writes =
          [{ path := out_path, spec := .gifStatic canonicalPalette }]) ∧
      (1 < img.frames.length →
        (convert_single_webp env (path, fmt, del)).2.writes =
          [{ path := out_path,
             spec := .gifAnimated
               ((gifMappedFrames img.frames.length).headD canonicalPalette)
               (gifMappedFrames img.frames.length).tail 0
               (img.frames.map (fun f => f.duration.getD 100)) 2 false }] ∧
        ((gifMappedFrames img.frames.length).headD canonicalPalette) ::
            (gifMappedFrames img.frames.length).tail =
          gifMappedFrames img.frames.length ∧
        (gifMappedFrames img.frames.length).length = img.frames.length) := by
  refine ⟨osPathJoin (osPathSplit path).1
    ((osSplitext (osPathSplit path).2).1 ++ ".gif"), ?_, ?_⟩
  · intro h1
    rw [gif_writes_eq env path fmt del img hdec hq he hfmt,
      if_pos (by rw [gifMappedFrames_length, h1])]
  · intro h1
    have hlen : ¬ (gifMappedFrames img.frames.length).length ≤ 1 := by
      rw [gifMappedFrames_length]; omega
    refine ⟨?_, ?_, gifMappedFrames_length _⟩
    · rw [gif_writes_eq env path fmt del img hdec hq he hfmt, if_neg hlen]
    · exact headD_cons_tail _ _ (by intro hnil; rw [hnil] at hlen; simp at hlen)

/-- C6: every JPEG-format task performs a single deterministic encode of the
first decoded frame converted to RGB, at quality 100 with chroma subsampling
disabled (`subsampling = 0`) and byte optimization enabled — exactly one
write, no retry or quality search. -/
theorem jpeg_single_deterministic_encode
    (env : TaskEnv) (path : String) (del : Bool) (img : WebPImage)
    (hdec : env.decode = some img) (he : env.encodeOk = true) :
    (convert_single_webp env (path, "JPEG", del)).2.writes =
      [{ path := osPathJoin (osPathSplit path).1
           ((osSplitext (osPathSplit path).2).1 ++ ".jpg"),
         spec := .jpeg (.convertRGB (.src 0)) 100 0 true }] := by
  unfold convert_single_webp
  rw [hdec]
  cases del <;> cases hrm : env.removeOk <;> simp [he, hrm]

/-- C7 (counterexample to the unconditional claim): a task whose decode fails
(corrupt or unreadable file) writes no output file at all, so "exactly one
output file is written" does not hold for every task. -/
theorem failed_task_writes_no_output :
    (convert_single_webp envDecodeFail ("bad.webp", "JPEG", true)).1.success = false ∧
    (convert_single_webp envDecodeFail ("bad.webp", "JPEG", true)).2.writes = [] :=
  ⟨rfl, rfl⟩

/-- C7 (amended): every task writes at most one output file; any written
output sits beside the input, at the input's directory joined with its
basename and the extension replaced by `.jpg` for the JPEG format and `.gif`
otherwise; exactly one output is written whenever decode and encode (and the
GIF quantize) succeed — in particular whenever the task reports success — and
none when the task fails before the encode completes. -/
theorem output_write_path_and_uniqueness
    (env : TaskEnv) (path fmt : String) (del : Bool) :
    (convert_single_webp env (path, fmt, del)).2.writes.length ≤ 1 ∧
    (∀ w ∈ (convert_single_webp env (path, fmt, del)).2.writes,
      w.path = osPathJoin (osPathSplit path).1
        ((osSplitext (osPathSplit path).2).1 ++
          (if fmt = "JPEG" then ".jpg" else ".gif"))) ∧
    ((convert_single_webp env (path, fmt, del)).1.success = true →
      (convert_single_webp env (path, fmt, del)).2.writes.length = 1) ∧
    (env.decode.isSome = true → env.encodeOk = true →
      (fmt = "JPEG" ∨ env.quantizeOk = true) →
      (convert_single_webp env (path, fmt, del)).2.writes.length = 1) := by
  unfold convert_single_webp
  cases hdec : env.decode with
  | none => by_cases hf : fmt = "JPEG" <;> simp [hf, hdec]
  | some img =>
    by_cases hf : fmt = "JPEG" <;>
      cases he : env.encodeOk <;>
      cases hq : env.quantizeOk <;>
      cases del <;> cases hrm : env.removeOk <;>
      by_cases h1 : (gifMappedFrames img.frames.length).length ≤ 1 <;>
      simp [hf, hdec, he, hq, hrm, h1]

/-- C10: any `output_format` other than the exact string `"JPEG"` (including
lowercase or invalid values) takes the GIF branch: under a healthy run the one
written file is the `.gif` sibling of the source and is not produced by the
JPEG encoder; moreover no task with such a format ever invokes the JPEG
encoder, in any environment. -/
theorem non_jpeg_format_takes_gif_branch
    (env : TaskEnv) (path fmt : String) (del : Bool) (img : WebPImage)
    (hdec : env.decode = some img) (hq : env.quantizeOk = true)
    (he : env.encodeOk = true) (hfmt : fmt ≠ "JPEG") :
    (∃ spec, (convert_single_webp env (path, fmt, del)).2.writes =
        [{ path := osPathJoin (osPathSplit path).1
             ((osSplitext (osPathSplit path).2).1 ++ ".gif"),
           spec := spec }] ∧
        spec.usesJPEGEncoder = false) ∧
    ∀ (env2 : TaskEnv) (p2 : String) (d2 : Bool) (w : FileWrite),
      w ∈ (convert_single_webp env2 (p2, fmt, d2)).2.writes →
        w.spec.usesJPEGEncoder = false := by
  constructor
  · rw [gif_writes_eq env path fmt del img hdec hq he hfmt]
    refine ⟨_, rfl, ?_⟩
    split <;> rfl
  · intro env2 p2 d2 w hw
    revert hw
    unfold convert_single_webp
    cases hdec2 : env2.decode with
    | none => simp [hfmt]
    | some img2 =>
      cases he2 : env2.encodeOk <;>
        cases hq2 : env2.quantizeOk <;>
        cases d2 <;> cases hrm2 : env2.removeOk <;>
        by_cases h1 : (gifMappedFrames img2.frames.length).length ≤ 1 <;>
        simp [hfmt, he2, hq2, hrm2, h1, SaveSpec.usesJPEGEncoder] <;>
        rintro rfl <;> rfl

/-- C8: whenever the guards pass, `convert_all` creates one worker pool sized
to `cpu_count()` (one worker per available hardware execution unit), submits
every path's task tuple to it in order via non-blocking `apply_async`, then
calls `close()` and `join()` — blocking until every worker has finished, so
the batch is complete before control returns. -/
theorem dispatcher_pool_submit_join
    (cpu : Nat) (app : AppState) (completions : List PyResult)
    (hguard : convert_all_guard app = none) :
    ∃ final evs, convert_all cpu app completions =
      .ran { num_workers := cpu,
             submitted := app.webp_paths.map
               (fun p => (p, app.output_format, app.delete_original)),
             closed := true, joined := true } final evs := by
  unfold convert_all
  rw [hguard]
  exact ⟨_, _, rfl⟩

theorem dispatcher_witness :
    convert_all_guard sampleApp = none ∧
    ∃ final evs, convert_all 8 sampleApp [] =
      .ran { num_workers := 8, submitted := [("/a/x.webp", "JPEG", false)],
             closed := true, joined := true } final evs :=
  ⟨rfl, dispatcher_pool_submit_join 8 sampleApp [] rfl⟩

/-- C9: the aggregator processes the batch's completion updates one at a time
(the embedded semantics of the pool's single result-handler thread), each
increment-and-terminal-check being one atomic step; hence for any arrival
order of the `total` results no increment is lost (the counter ends at
`total`), the terminal signal fires exactly once, and it never fires while
any result is still outstanding. -/
theorem aggregation_serialized_exact_terminal
    (rs : List PyResult) (total : Nat) (hlen : rs.length = total) (h1 : 1 ≤ total) :
    (processResults { total_files := total, completed_files := 0 } rs).1.completed_files
        = total ∧
    countProgress
        (processResults { total_files := total, completed_files := 0 } rs).2 = total ∧
    countComplete
        (processResults { total_files := total, completed_files := 0 } rs).2 = 1 ∧
    ∀ k, k < total →
      countComplete
        (processResults { total_files := total, completed_files := 0 } (rs.take k)).2
          = 0 := by
  refine ⟨?_, ?_, ?_, ?_⟩
  · rw [processResults_fst]
    simp [hlen]
  · rw [countProgress_processResults, hlen]
  · rw [countComplete_processResults, if_pos (by dsimp only; omega)]
  · intro k hk
    rw [countComplete_processResults,
      if_neg (by dsimp only; simp only [List.length_take]; omega)]

theorem aggregation_witness :
    ([{ success := true, source_path := "a", error := none },
      { success := false, source_path := "b", error := some "x" }] :
        List PyResult).length = 2 ∧ 1 ≤ 2 ∧
    ((processResults { total_files := 2, completed_files := 0 }
        [{ success := true, source_path := "a", error := none },
         { success := false, source_path := "b", error := some "x" }]).1.completed_files
          = 2 ∧
     countProgress (processResults { total_files := 2, completed_files := 0 }
        [{ success := true, source_path := "a", error := none },
         { success := false, source_path := "b", error := some "x" }]).2 = 2 ∧
     countComplete (processResults { total_files := 2, completed_files := 0 }
        [{ success := true, source_path := "a", error := none },
         { success := false, source_path := "b", error := some "x" }]).2 = 1 ∧
     ∀ k, k < 2 →
       countComplete (processResults { total_files := 2, completed_files := 0 }
         (([{ success := true, source_path := "a", error := none },
            { success := false, source_path := "b", error := some "x" }] :
              List PyResult).take k)).2 = 0) :=
  ⟨rfl, by omega,
    aggregation_serialized_exact_terminal
      [{ success := true, source_path := "a", error := none },
       { success := false, source_path := "b", error := some "x" }] 2 rfl (by omega)⟩

/-- C1 (counterexample to the unconditional claim): the empty batch never
runs — `convert_all` returns early with a warning dialog, delivering zero
per-completion callbacks and zero terminal batch-complete signals instead of
the one terminal signal the claim requires at `N = 0`. -/
theorem empty_batch_no_terminal_signal :
    convert_all 1 emptyApp [] = .warnNoFiles ∧
    countComplete (outcomeEvents (convert_all 1 emptyApp [])) = 0 ∧
    countProgress (outcomeEvents (convert_all 1 emptyApp [])) = 0 :=
  ⟨rfl, rfl, rfl⟩

/-- C1 (amended): for every batch of `N ≥ 1` paths that passes `convert_all`'s
guards, with `total_files` set to `N` as `select_items` leaves it and the pool
delivering exactly one result per submitted task in any fan-in order, the run
completes with `completed == total == N`, exactly `N` per-completion progress
callbacks, and the terminal batch-complete signal published exactly once; the
empty batch is rejected before dispatch and publishes nothing. -/
theorem batch_progress_and_terminal
    (cpu : Nat) (app : AppState) (envs : List TaskEnv) (completions : List PyResult)
    (hguard : convert_all_guard app = none)
    (htotal : app.total_files = app.webp_paths.length)
    (henvs : envs.length = app.webp_paths.length)
    (hperm : completions.Perm (poolRun (app.webp_paths.map
      (fun p => (p, app.output_format, app.delete_original))) envs)) :
    ∃ plan final evs, convert_all cpu app completions = .ran plan final evs ∧
      final.completed_files = app.webp_paths.length ∧
      final.total_files = app.webp_paths.length ∧
      countProgress evs = app.webp_paths.length ∧
      countComplete evs = 1 := by
  have hne : app.webp_paths ≠ [] := by
    intro h
    unfold convert_all_guard at hguard
    rw [h] at hguard
    simp at hguard
  have hlen : completions.length = app.webp_paths.length := by
    rw [hperm.length_eq]
    simp [poolRun, henvs]
  have hpos : 1 ≤ app.webp_paths.length := by
    cases hp : app.webp_paths with
    | nil => exact absurd hp hne
    | cons a l => simp [hp]
  unfold convert_all
  rw [hguard]
  refine ⟨_, _, _, rfl, ?_, ?_, ?_, ?_⟩
  · rw [processResults_fst]
    simp [htotal, hlen]
  · rw [processResults_fst]
    simp [htotal]
  · rw [countProgress_processResults, hlen]
  · rw [countComplete_processResults, if_pos (by dsimp only; omega)]

theorem batch_witness :
    convert_all_guard sampleApp = none ∧
    sampleApp.total_files = sampleApp.webp_paths.length ∧
    ([envOk] : List TaskEnv).length = sampleApp.webp_paths.length ∧
    ∃ plan final evs,
      convert_all 2 sampleApp (poolRun [("/a/x.webp", "JPEG", false)] [envOk]) =
        .ran plan final evs ∧
      final.completed_files = 1 ∧ final.total_files = 1 ∧
      countProgress evs = 1 ∧ countComplete evs = 1 :=
  ⟨rfl, rfl, rfl,
    batch_progress_and_terminal 2 sampleApp [envOk] _ rfl rfl rfl (List.Perm.refl _)⟩

theorem gif_canonical_palette_witness :
    envAnim.decode = some { frames := [{ duration := some 80 }, { duration := none },
        { duration := some 40 }, { duration := some 80 }] } ∧
    envAnim.quantizeOk = true ∧ envAnim.encodeOk = true ∧ ("GIF" : String) ≠ "JPEG" ∧
    (canonicalPalette = .quantizeMediancut (.convertRGB (.src 0)) 256 ∧
     (∀ i, i < 4 →
       (gifMappedFrames 4)[i]? =
         some (.quantizePalette (.convertRGB (.src i)) canonicalPalette)) ∧
     ∃ w, (convert_single_webp envAnim ("/a/anim.webp", "GIF", false)).2.writes = [w] ∧
       ∀ f ∈ w.spec.gifFrames,
         f = canonicalPalette ∨
           ∃ i, i < 4 ∧
             f = .quantizePalette (.convertRGB (.src i)) canonicalPalette) :=
  ⟨rfl, rfl, rfl, by decide,
    gif_single_canonical_palette envAnim "/a/anim.webp" "GIF" false
      { frames := [{ duration := some 80 }, { duration := none },
        { duration := some 40 }, { duration := some 80 }] } rfl rfl rfl (by decide)⟩

theorem gif_output_structure_witness :
    envAnim.decode = some { frames := [{ duration := some 80 }, { duration := none },
        { duration := some 40 }, { duration := some 80 }] } ∧
    envAnim.quantizeOk = true ∧ envAnim.encodeOk = true ∧ ("GIF" : String) ≠ "JPEG" ∧
    ∃ out_path,
      ((4 : Nat) = 1 →
        (convert_single_webp envAnim ("/a/anim.webp", "GIF", false)).2.writes =
          [{ path := out_path, spec := .gifStatic canonicalPalette }]) ∧
      ((1 : Nat) < 4 →
        (convert_single_webp envAnim ("/a/anim.webp", "GIF", false)).2.writes =
          [{ path := out_path,
             spec := .gifAnimated ((gifMappedFrames 4).headD canonicalPalette)
               (gifMappedFrames 4).tail 0 [80, 100, 40, 80] 2 false }] ∧
        ((gifMappedFrames 4).headD canonicalPalette) :: (gifMappedFrames 4).tail =
          gifMappedFrames 4 ∧
        (gifMappedFrames 4).length = 4) :=
  ⟨rfl, rfl, rfl, by decide,
    gif_output_frame_structure envAnim "/a/anim.webp" "GIF" false
      { frames := [{ duration := some 80 }, { duration := none },
        { duration := some 40 }, { duration := some 80 }] } rfl rfl rfl (by decide)⟩

theorem jpeg_encode_witness :
    envOk.decode = some { frames := [{ duration := some 80 }] } ∧
    envOk.encodeOk = true ∧
    (convert_single_webp envOk ("/a/photo.webp", "JPEG", false)).2.writes =
      [{ path := osPathJoin (osPathSplit "/a/photo.webp").1
           ((osSplitext (osPathSplit "/a/photo.webp").2).1 ++ ".jpg"),
         spec := .jpeg (.convertRGB (.src 0)) 100 0 true }] :=
  ⟨rfl, rfl,
    jpeg_single_deterministic_encode envOk "/a/photo.webp" false
      { frames := [{ duration := some 80 }] } rfl rfl⟩

theorem output_write_path_witness :
    (convert_single_webp envOk ("/a/photo.webp", "JPEG", false)).2.writes.length ≤ 1 ∧
    (∀ w ∈ (convert_single_webp envOk ("/a/photo.webp", "JPEG", false)).2.writes,
      w.path = osPathJoin (osPathSplit "/a/photo.webp").1
        ((osSplitext (osPathSplit "/a/photo.webp").2).1 ++
          (if ("JPEG" : String) = "JPEG" then ".jpg" else ".gif"))) ∧
    ((convert_single_webp envOk ("/a/photo.webp", "JPEG", false)).1.success = true →
      (convert_single_webp envOk ("/a/photo.webp", "JPEG", false)).2.writes.length = 1) ∧
    (envOk.decode.isSome = true → envOk.encodeOk = true →
      (("JPEG" : String) = "JPEG" ∨ envOk.quantizeOk = true) →
      (convert_single_webp envOk ("/a/photo.webp", "JPEG", false)).2.writes.length = 1) :=
  output_write_path_and_uniqueness envOk "/a/photo.webp" "JPEG" false

theorem non_jpeg_branch_witness :
    envOk.decode = some { frames := [{ duration := some 80 }] } ∧
    envOk.quantizeOk = true ∧ envOk.encodeOk = true ∧ ("jpeg" : String) ≠ "JPEG" ∧
    ((∃ spec, (convert_single_webp envOk ("/a/photo.webp", "jpeg", true)).2.writes =
        [{ path := osPathJoin (osPathSplit "/a/photo.webp").1
             ((osSplitext (osPathSplit "/a/photo.webp").2).1 ++ ".gif"),
           spec := spec }] ∧
        spec.usesJPEGEncoder = false) ∧
     ∀ (env2 : TaskEnv) (p2 : String) (d2 : Bool) (w : FileWrite),
       w ∈ (convert_single_webp env2 (p2, "jpeg", d2)).2.writes →
         w.spec.usesJPEGEncoder = false) :=
  ⟨rfl, rfl, rfl, by decide,
    non_jpeg_format_takes_gif_branch envOk "/a/photo.webp" "jpeg" true
      { frames := [{ duration := some 80 }] } rfl rfl rfl (by decide)⟩

end WebPConv
